import Mathlib

/-!
Verification development for the gint session core.

The Go source under verification consists of the JWT manager
(internal/jwt: generateToken, GenerateTokenPair, verifyToken), the header
token carrier (session/header), the session abstraction (session/types.go)
and its two provider/session backends: the in-memory one
(session/memory/provider.go, session/memory/session.go) and the
Redis-backed one (the redis provider and session files).

Modelling conventions of the shallow embedding:
* time is Int, in unix seconds (jwt NumericDate truncates to seconds);
* uuid.New().String() is modelled as a draw from an injective supply of
  fresh identifiers (a counter threaded through every operation);
* a signed token is a record carrying its claims, its declared algorithm
  and a signature value; the HMAC is modelled as a perfect MAC, the
  signature being the triple of key, algorithm and signed payload;
* a Go map value of reference type that may be nil is an Option around an
  association list, and assignment into a nil map is the distinguished
  outcome Outcome.panics, as in Go;
* the Redis store is fault free (no network errors): records carry an
  optional absolute expiry and a record past its expiry is absent, which
  is the logical contract of redis TTLs.
-/

set_option autoImplicit false

namespace Gint

/-! ## Association lists (Go maps and redis hashes) -/

def alGet {κ β : Type} [DecidableEq κ] : List (κ × β) → κ → Option β
  | [], _ => none
  | (k, v) :: r, key => if k = key then some v else alGet r key

def alSet {κ β : Type} [DecidableEq κ] : List (κ × β) → κ → β → List (κ × β)
  | [], key, v => [(key, v)]
  | (k, w) :: r, key, v => if k = key then (key, v) :: r else (k, w) :: alSet r key v

def alDel {κ β : Type} [DecidableEq κ] : List (κ × β) → κ → List (κ × β)
  | [], _ => []
  | (k, w) :: r, key => if k = key then alDel r key else (k, w) :: alDel r key

theorem alGet_alDel_self {κ β : Type} [DecidableEq κ] (l : List (κ × β)) (k : κ) :
    alGet (alDel l k) k = none := by
  induction l with
  | nil => rfl
  | cons p r ih =>
    obtain ⟨k0, v0⟩ := p
    by_cases h : k0 = k
    · simpa [alDel, h] using ih
    · simp [alDel, alGet, h, ih]

theorem alGet_alSet_self {κ β : Type} [DecidableEq κ] (l : List (κ × β)) (k : κ) (v : β) :
    alGet (alSet l k v) k = some v := by
  induction l with
  | nil => simp [alSet, alGet]
  | cons p r ih =>
    obtain ⟨k0, v0⟩ := p
    by_cases h : k0 = k
    · simp [alSet, alGet, h]
    · simp [alSet, alGet, h, ih]

theorem alGet_alSet_ne {κ β : Type} [DecidableEq κ] (l : List (κ × β)) (k k2 : κ) (v : β)
    (h : k ≠ k2) : alGet (alSet l k v) k2 = alGet l k2 := by
  induction l with
  | nil => simp [alSet, alGet, h]
  | cons p r ih =>
    obtain ⟨k0, v0⟩ := p
    by_cases h0 : k0 = k
    · subst h0
      simp [alSet, alGet, h]
    · simp [alSet, alGet, h0, ih]

/-! ## JWT layer (internal/jwt) -/

/-- The registered claim fields stamped by generateToken
(jwt.RegisteredClaims: Issuer, ExpiresAt, IssuedAt, NotBefore, ID).
Timestamps are unix seconds; the token id (jti) is a draw from the
uuid supply, modelled as a Nat. -/
structure RegisteredClaims where
  issuer : String
  expiresAt : Int
  issuedAt : Int
  notBefore : Int
  jti : Nat
deriving DecidableEq, Repr

/-- The claim payload of internal/jwt: UserId, SSID (a uuid, modelled as a
Nat drawn from the supply), Data, plus the embedded RegisteredClaims. -/
structure Claims where
  userId : String
  ssid : Nat
  data : List (String × String)
  reg : RegisteredClaims
deriving DecidableEq, Repr

/-- The zero value of jwt.RegisteredClaims, as held by a freshly built
Claims literal before generateToken stamps it. -/
def zeroReg : RegisteredClaims :=
  { issuer := "", expiresAt := 0, issuedAt := 0, notBefore := 0, jti := 0 }

/-- jwt.Options: signing key, the two TTLs (seconds), signing method name
and issuer. -/
structure Options where
  signKey : String
  accessExpire : Int
  refreshExpire : Int
  method : String
  issuer : String
deriving DecidableEq, Repr

/-- jwt.NewOptions: HS256 method and issuer gint. -/
def NewOptions (signKey : String) (accessExpire refreshExpire : Int) : Options :=
  { signKey := signKey, accessExpire := accessExpire, refreshExpire := refreshExpire,
    method := "HS256", issuer := "gint" }

/-- A signature value: the HMAC over the encoded claims is modelled as a
perfect MAC, i.e. the triple of the key, the algorithm and the payload. -/
structure Signature where
  key : String
  alg : String
  payload : Claims
deriving DecidableEq, Repr

/-- A signed token: the claims it encodes, the algorithm declared in its
header, and its signature. Corresponds to the compact JWS string; the
encoding of claims into the string is injective, so the record is a
faithful abstraction. -/
structure Token where
  claims : Claims
  alg : String
  sig : Signature
deriving DecidableEq, Repr

/-- The state of the two effectful inputs of the jwt layer: the clock
(time.Now, unix seconds) and the uuid supply counter. -/
structure GenState where
  now : Int
  ctr : Nat
deriving DecidableEq, Repr

/-- uuid.New(): draws the next fresh identifier from the supply. -/
def drawUuid (g : GenState) : Nat × GenState :=
  (g.ctr, { g with ctr := g.ctr + 1 })

/-- manager.generateToken: stamps Issuer, ExpiresAt = now + expire,
IssuedAt = now, NotBefore = now and a fresh ID onto the claims, then
signs with the configured key and method. -/
def generateToken (opts : Options) (claims : Claims) (expire : Int) (now : Int)
    (jti : Nat) : Token :=
  let stamped : Claims :=
    { claims with
      reg := { issuer := opts.issuer, expiresAt := now + expire,
               issuedAt := now, notBefore := now, jti := jti } }
  { claims := stamped, alg := opts.method,
    sig := { key := opts.signKey, alg := opts.method, payload := stamped } }

/-- jwt.TokenPair. -/
structure TokenPair where
  accessToken : Token
  refreshToken : Token
deriving DecidableEq, Repr

/-- manager.GenerateTokenPair: generateToken with the access TTL, then
generateToken with the refresh TTL; each call draws its own fresh uuid
for the token id. -/
def GenerateTokenPair (opts : Options) (claims : Claims) (g : GenState) :
    TokenPair × GenState :=
  let (j1, g1) := drawUuid g
  let access := generateToken opts claims opts.accessExpire g1.now j1
  let (j2, g2) := drawUuid g1
  let refresh := generateToken opts claims opts.refreshExpire g2.now j2
  ({ accessToken := access, refreshToken := refresh }, g2)

/-- Distinguishable failure modes of verifyToken, mirroring the errors of
jwt.ParseWithClaims: unparsable input, declared algorithm not matching
the configured method, signature mismatch, expired (now at or past
ExpiresAt), and used before NotBefore. -/
inductive VerifyErr where
  | malformed
  | algMismatch
  | badSignature
  | expired
  | notYetValid
deriving DecidableEq, Repr

/-- A header value on the wire: absent or empty string, a well formed
signed token, or a non-token string. -/
inductive HVal where
  | empty
  | tok (t : Token)
  | rawStr (s : String)
deriving DecidableEq, Repr

/-- manager.verifyToken: parse, reject a declared algorithm different
from the configured method, check the signature against the configured
key, then validate the registered claims as golang-jwt v5 does by
default: valid iff now is strictly before ExpiresAt and not before
NotBefore (zero leeway; IssuedAt is not validated by default in v5). -/
def verifyToken (opts : Options) (now : Int) (h : HVal) : Except VerifyErr Claims :=
  match h with
  | .empty => .error .malformed
  | .rawStr _ => .error .malformed
  | .tok t =>
    if t.alg ≠ opts.method then .error .algMismatch
    else if t.sig ≠ { key := opts.signKey, alg := t.alg, payload := t.claims } then
      .error .badSignature
    else if t.claims.reg.expiresAt ≤ now then .error .expired
    else if now < t.claims.reg.notBefore then .error .notYetValid
    else .ok t.claims

/-! ## Request context and header carrier (gctx, session/header) -/

/-- A Go value stored in a session data map (map key to any): enough
constructors for the values the code writes (strings, unix timestamps)
plus an opaque constructor for arbitrary caller payloads. -/
inductive GoVal where
  | str (s : String)
  | int (i : Int)
  | other (n : Nat)
deriving DecidableEq, Repr

/-- The redis Session handle (defined early because the request context
can cache one under CtxSessionKey): redis key, pointer to the claims and
the configured expiration. The redis client itself is threaded
explicitly as an RStore below. -/
structure RedisSessionHandle where
  ssid : Nat
  claims : Claims
  expiration : Int
deriving DecidableEq, Repr

/-- A value stored in the gin context key map (ctx.Set / ctx.Get): either
something that type-asserts to session.Session (a redis session handle;
the memory provider never stores one) or an unrelated value on which the
type assertion fails. -/
inductive CtxVal where
  | sess (s : RedisSessionHandle)
  | raw (n : Nat)
deriving DecidableEq, Repr

/-- The per-request gctx.Context: request headers, response headers
(written by Header) and the gin key map (ctx.Set / ctx.Get). -/
structure Ctx where
  req : List (String × HVal)
  resp : List (String × HVal)
  keys : List (String × CtxVal)
deriving DecidableEq, Repr

/-- ctx.GetHeader: an absent request header reads as the empty string. -/
def Ctx.getHeader (c : Ctx) (k : String) : HVal :=
  (alGet c.req k).getD .empty

/-- ctx.Context.Header(k, v): sets a response header. -/
def Ctx.setRespHeader (c : Ctx) (k : String) (v : HVal) : Ctx :=
  { c with resp := alSet c.resp k v }

/-- ctx.Get(k): reads the gin key map. -/
def Ctx.getKey (c : Ctx) (k : String) : Option CtxVal :=
  alGet c.keys k

/-- ctx.Set(k, v): writes the gin key map. -/
def Ctx.setKey (c : Ctx) (k : String) (v : CtxVal) : Ctx :=
  { c with keys := alSet c.keys k v }

/-- session.CtxSessionKey. -/
def CtxSessionKey : String := "gint:session"

/-- header.Carrier: a token carrier reading and writing one named
header. -/
structure Carrier where
  headerName : String
deriving DecidableEq, Repr

/-- header.NewCarrier: default header name Authorization. -/
def NewCarrier : Carrier := { headerName := "Authorization" }

/-- Carrier.Inject: writes the token to the response header. -/
def Carrier.Inject (c : Carrier) (ctx : Ctx) (t : Token) : Ctx :=
  ctx.setRespHeader c.headerName (.tok t)

/-- Carrier.Extract: reads the request header. -/
def Carrier.Extract (c : Carrier) (ctx : Ctx) : HVal :=
  ctx.getHeader c.headerName

/-- Carrier.Clear: sets the response header to the empty string. -/
def Carrier.Clear (c : Carrier) (ctx : Ctx) : Ctx :=
  ctx.setRespHeader c.headerName .empty

/-! ## Error taxonomy of the two providers and sessions -/

/-- One constructor per distinct Go error produced by the session layer.
Verification failures carry the underlying VerifyErr (the Go code wraps
them with fmt.Errorf and %w, preserving the cause). -/
inductive Err where
  | tokenNotFound
  | verify (e : VerifyErr)
  | sessionNotFound
  | sessionExpired
  | keyNotFound
  | noRefreshToken
  | renewSessionNotFound
  | renewSessionExpired
  | redisSessionMissing
deriving DecidableEq, Repr

/-- Outcome of an operation: success, an error, or a Go runtime panic
(assignment into a nil map). -/
inductive Outcome (α : Type) where
  | ok (a : α)
  | err (e : Err)
  | panics
deriving DecidableEq, Repr

/-! ## Memory backend (session/memory) -/

/-- memory.Session: id, claims pointer, the data map (map string to any,
possibly nil — hence the Option) and the absolute expiry. -/
structure MemSession where
  id : Nat
  claims : Claims
  data : Option (List (String × GoVal))
  expireTime : Int
deriving DecidableEq, Repr

/-- memory Session.Get: fails with ErrSessionExpired when now is past
expireTime, then looks the key up (a read of a nil map yields absent). -/
def MemSession.Get (s : MemSession) (now : Int) (key : String) : Outcome GoVal :=
  if s.expireTime < now then .err .sessionExpired
  else
    match alGet (s.data.getD []) key with
    | some v => .ok v
    | none => .err .keyNotFound

/-- memory Session.Set: fails with ErrSessionExpired when now is past
expireTime; otherwise assigns into the data map — which, on a nil map,
is a Go runtime panic. -/
def MemSession.Set (s : MemSession) (now : Int) (key : String) (v : GoVal) :
    Outcome MemSession :=
  if s.expireTime < now then .err .sessionExpired
  else
    match s.data with
    | none => .panics
    | some m => .ok { s with data := some (alSet m key v) }

/-- memory Session.Del: fails with ErrSessionExpired when now is past
expireTime; delete on a nil map is a no-op in Go. -/
def MemSession.Del (s : MemSession) (now : Int) (key : String) : Outcome MemSession :=
  if s.expireTime < now then .err .sessionExpired
  else .ok { s with data := s.data.map (fun m => alDel m key) }

/-- memory Session.Destroy: no expiry check; marks the session expired by
moving expireTime one hour into the past, and always succeeds. -/
def MemSession.Destroy (s : MemSession) (now : Int) : Outcome MemSession :=
  .ok { s with expireTime := now - 3600 }

/-- memory Session.Refresh: fails with ErrSessionExpired when now is past
expireTime; otherwise returns with the session unchanged (the comment in
the source defers the actual extension to the Provider). -/
def MemSession.Refresh (s : MemSession) (now : Int) : Outcome MemSession :=
  if s.expireTime < now then .err .sessionExpired
  else .ok s

/-- memory.Provider: jwt options, session expiration (set to the refresh
TTL by NewProvider), the token carrier and the id-to-session map. -/
structure MemProvider where
  opts : Options
  expiration : Int
  carrier : Carrier
  sessions : List (Nat × MemSession)
deriving DecidableEq, Repr

/-- memory.NewProvider: expiration is the refresh token TTL; the session
map starts empty. -/
def MemProvider.NewProvider (jwtKey : String) (accessExpire refreshExpire : Int)
    (carrier : Carrier) : MemProvider :=
  { opts := NewOptions jwtKey accessExpire refreshExpire,
    expiration := refreshExpire, carrier := carrier, sessions := [] }

structure MemNewSessionOut where
  res : Outcome MemSession
  prov : MemProvider
  ctx : Ctx
  gen : GenState
deriving DecidableEq, Repr

/-- memory Provider.NewSession: draws a fresh session id, builds the
claims (zero registered claims), generates the token pair, stores the
session (expiry now + expiration) keyed by its id, injects the access
token through the carrier and the refresh token through the fixed
X-Refresh-Token response header. The caller supplied sessData map is
stored as is — a nil map is kept nil. -/
def MemProvider.NewSession (p : MemProvider) (ctx : Ctx) (userId : String)
    (jwtData : List (String × String)) (sessData : Option (List (String × GoVal)))
    (g : GenState) : MemNewSessionOut :=
  let (sid, g1) := drawUuid g
  let claims : Claims := { userId := userId, ssid := sid, data := jwtData, reg := zeroReg }
  let (pair, g2) := GenerateTokenPair p.opts claims g1
  let sess : MemSession :=
    { id := sid, claims := claims, data := sessData, expireTime := g2.now + p.expiration }
  let p2 := { p with sessions := alSet p.sessions sid sess }
  let ctx2 := (p.carrier.Inject ctx pair.accessToken).setRespHeader
    "X-Refresh-Token" (.tok pair.refreshToken)
  { res := .ok sess, prov := p2, ctx := ctx2, gen := g2 }

structure MemGetOut where
  res : Outcome MemSession
  prov : MemProvider
deriving DecidableEq, Repr

/-- memory Provider.Get: extract the token (empty fails), verify it, look
the session up by the SSID claim (absent fails with ErrSessionNotFound),
drop it and fail with ErrSessionExpired when past its expiry, otherwise
renew the expiry to now + expiration and return the session. The gin
context key map is never consulted. -/
def MemProvider.Get (p : MemProvider) (ctx : Ctx) (now : Int) : MemGetOut :=
  let token := p.carrier.Extract ctx
  if token = .empty then { res := .err .tokenNotFound, prov := p }
  else
    match verifyToken p.opts now token with
    | .error e => { res := .err (.verify e), prov := p }
    | .ok claims =>
      match alGet p.sessions claims.ssid with
      | none => { res := .err .sessionNotFound, prov := p }
      | some sess =>
        if sess.expireTime < now then
          { res := .err .sessionExpired,
            prov := { p with sessions := alDel p.sessions claims.ssid } }
        else
          let sess2 := { sess with expireTime := now + p.expiration }
          { res := .ok sess2,
            prov := { p with sessions := alSet p.sessions claims.ssid sess2 } }

structure MemDestroyOut where
  res : Outcome Unit
  prov : MemProvider
  ctx : Ctx
deriving DecidableEq, Repr

/-- memory Provider.Destroy: extract the token (empty fails), verify it,
delete the session from the map unconditionally, clear the carrier. -/
def MemProvider.Destroy (p : MemProvider) (ctx : Ctx) (now : Int) : MemDestroyOut :=
  let token := p.carrier.Extract ctx
  if token = .empty then { res := .err .tokenNotFound, prov := p, ctx := ctx }
  else
    match verifyToken p.opts now token with
    | .error e => { res := .err (.verify e), prov := p, ctx := ctx }
    | .ok claims =>
      { res := .ok (),
        prov := { p with sessions := alDel p.sessions claims.ssid },
        ctx := p.carrier.Clear ctx }

structure MemRenewOut where
  res : Outcome Unit
  prov : MemProvider
  ctx : Ctx
  gen : GenState
deriving DecidableEq, Repr

/-- memory Provider.RenewToken: reads the refresh token from the fixed
X-Refresh-Token request header (never from the carrier), verifies it,
requires a live backend record for the embedded SSID (absent and expired
are two distinct errors), then generates a brand new token pair from the
verified claims, injects the access token through the carrier and the
refresh token through the X-Refresh-Token response header, and renews
the record expiry to now + expiration. -/
def MemProvider.RenewToken (p : MemProvider) (ctx : Ctx) (g : GenState) : MemRenewOut :=
  let rt := ctx.getHeader "X-Refresh-Token"
  if rt = .empty then { res := .err .noRefreshToken, prov := p, ctx := ctx, gen := g }
  else
    match verifyToken p.opts g.now rt with
    | .error e => { res := .err (.verify e), prov := p, ctx := ctx, gen := g }
    | .ok claims =>
      match alGet p.sessions claims.ssid with
      | none => { res := .err .renewSessionNotFound, prov := p, ctx := ctx, gen := g }
      | some sess =>
        if sess.expireTime < g.now then
          { res := .err .renewSessionExpired, prov := p, ctx := ctx, gen := g }
        else
          let (pair, g2) := GenerateTokenPair p.opts claims g
          let ctx2 := (p.carrier.Inject ctx pair.accessToken).setRespHeader
            "X-Refresh-Token" (.tok pair.refreshToken)
          let sess2 := { sess with expireTime := g2.now + p.expiration }
          { res := .ok (),
            prov := { p with sessions := alSet p.sessions claims.ssid sess2 },
            ctx := ctx2, gen := g2 }

/-! ## Redis backend (the redis provider and session files) -/

/-- A redis key: the session namespace applied to a session id. The Go
code builds it as the string gint:session: followed by the ssid; the
constructor application is the injective image of that encoding. -/
inductive RKey where
  | session (ssid : Nat)
deriving DecidableEq, Repr

/-- sessionKey (redis session file): namespace plus id. -/
def sessionKey (ssid : Nat) : RKey := RKey.session ssid

/-- A redis record: a hash of fields holding JSON-encoded values, plus an
optional absolute expiry (none when no TTL was set on the key). -/
structure RRecord where
  fields : List (String × String)
  expireAt : Option Int
deriving DecidableEq, Repr

/-- The redis store: key to record. Fault free (no network errors). -/
structure RStore where
  kv : List (RKey × RRecord)
deriving DecidableEq, Repr

/-- Liveness of a record at a given time: a record with a TTL is gone
once now reaches its expiry. -/
def RRecord.alive (r : RRecord) (now : Int) : Bool :=
  match r.expireAt with
  | none => true
  | some e => now < e

/-- Fetch the live record under a key; a record past its TTL is absent. -/
def RStore.lookupLive (st : RStore) (now : Int) (k : RKey) : Option RRecord :=
  match alGet st.kv k with
  | some r => if r.alive now then some r else none
  | none => none

/-- EXISTS: one key, result as a Bool. -/
def RStore.existsKey (st : RStore) (now : Int) (k : RKey) : Bool :=
  (st.lookupLive now k).isSome

/-- HSET: writes one hash field; creates the key (with no TTL) when it is
absent or dead, and preserves the TTL of a live key. -/
def RStore.hset (st : RStore) (now : Int) (k : RKey) (f v : String) : RStore :=
  match st.lookupLive now k with
  | some r => { kv := alSet st.kv k { r with fields := alSet r.fields f v } }
  | none => { kv := alSet st.kv k { fields := [(f, v)], expireAt := none } }

/-- HGET: reads one hash field of the live record; absent key or absent
field both read as redis.Nil. -/
def RStore.hget (st : RStore) (now : Int) (k : RKey) (f : String) : Option String :=
  match st.lookupLive now k with
  | some r => alGet r.fields f
  | none => none

/-- HDEL: deletes one hash field of the live record. -/
def RStore.hdel (st : RStore) (now : Int) (k : RKey) (f : String) : RStore :=
  match st.lookupLive now k with
  | some r => { kv := alSet st.kv k { r with fields := alDel r.fields f } }
  | none => st

/-- EXPIRE: sets the TTL of a live key to d from now; a no-op on an
absent or dead key (the Err result of the Go client is nil either
way). -/
def RStore.expire (st : RStore) (now : Int) (k : RKey) (d : Int) : RStore :=
  match st.lookupLive now k with
  | some r => { kv := alSet st.kv k { r with expireAt := some (now + d) } }
  | none => st

/-- DEL: removes the key. -/
def RStore.del (st : RStore) (k : RKey) : RStore :=
  { kv := alDel st.kv k }

/-- json.Marshal restricted to the GoVal constructors. Injective on the
values the code stores. -/
def jsonEncode : GoVal → String
  | .str s => "\x22" ++ s ++ "\x22"
  | .int i => toString i
  | .other n => "opaque:" ++ toString n

/-- The redis Session file key of a handle. -/
def RedisSessionHandle.key (s : RedisSessionHandle) : RKey := sessionKey s.ssid

/-- newSession (redis session file). -/
def newRedisSession (ssid : Nat) (expiration : Int) (claims : Claims) :
    RedisSessionHandle :=
  { ssid := ssid, claims := claims, expiration := expiration }

/-- redis Session.Set: HSET the JSON-encoded value, then EXPIRE the key
with the configured expiration. -/
def RedisSessionHandle.Set (s : RedisSessionHandle) (st : RStore) (now : Int)
    (key : String) (v : GoVal) : Outcome Unit × RStore :=
  let st1 := st.hset now s.key key (jsonEncode v)
  (.ok (), st1.expire now s.key s.expiration)

/-- redis Session.Get: HGET; redis.Nil becomes the key-not-found error;
the decode fallback (returning the raw string on a decode mismatch) is
irrelevant to the claims and the raw stored string is returned. -/
def RedisSessionHandle.Get (s : RedisSessionHandle) (st : RStore) (now : Int)
    (key : String) : Outcome String :=
  match st.hget now s.key key with
  | some v => .ok v
  | none => .err .keyNotFound

/-- redis Session.Del: HDEL of the field. -/
def RedisSessionHandle.Del (s : RedisSessionHandle) (st : RStore) (now : Int)
    (key : String) : Outcome Unit × RStore :=
  (.ok (), st.hdel now s.key key)

/-- redis Session.Destroy: DEL of the whole key. -/
def RedisSessionHandle.Destroy (s : RedisSessionHandle) (st : RStore) :
    Outcome Unit × RStore :=
  (.ok (), st.del s.key)

/-- redis Session.Refresh: EXPIRE with the configured expiration. -/
def RedisSessionHandle.Refresh (s : RedisSessionHandle) (st : RStore) (now : Int) :
    Outcome Unit × RStore :=
  (.ok (), st.expire now s.key s.expiration)

/-- redis Session.init: pipelined HSET of every entry followed by one
EXPIRE; a no-op on an empty map. -/
def RedisSessionHandle.init (s : RedisSessionHandle) (st : RStore) (now : Int)
    (data : List (String × GoVal)) : RStore :=
  match data with
  | [] => st
  | _ =>
    let st1 := data.foldl (fun acc kv => acc.hset now s.key kv.1 (jsonEncode kv.2)) st
    st1.expire now s.key s.expiration

/-- redis.Provider: jwt options, carrier, expiration (the refresh TTL). -/
structure RedisProvider where
  opts : Options
  carrier : Carrier
  expiration : Int
deriving DecidableEq, Repr

/-- redis NewProvider: expiration is the refresh token TTL. -/
def RedisProvider.NewProvider (jwtKey : String) (accessExpire refreshExpire : Int)
    (carrier : Carrier) : RedisProvider :=
  { opts := NewOptions jwtKey accessExpire refreshExpire, carrier := carrier,
    expiration := refreshExpire }

structure RedisNewSessionOut where
  res : Outcome RedisSessionHandle
  ctx : Ctx
  store : RStore
  gen : GenState
deriving DecidableEq, Repr

/-- The two in-place bookkeeping writes redis Provider.NewSession performs
on the sessData map before storing it (lines 89 and 90 of the provider):
sessData of user_id becomes the user id and sessData of created_at
becomes the current unix time. Go maps are reference values, so on a
non-nil map these writes are visible to the caller through its own map
object. -/
def redisSessDataPrep (userId : String) (now : Int)
    (sessData : List (String × GoVal)) : List (String × GoVal) :=
  alSet (alSet sessData "user_id" (.str userId)) "created_at" (.int now)

/-- redis Provider.NewSession: draws a fresh ssid, builds the claims,
generates and injects the token pair (access through the carrier,
refresh through the fixed X-Refresh-Token response header), replaces a
nil sessData with a fresh empty map, then writes the bookkeeping entries
user_id and created_at INTO the sessData map itself before handing it to
init. -/
def RedisProvider.NewSession (p : RedisProvider) (ctx : Ctx) (userId : String)
    (jwtData : List (String × String)) (sessData : Option (List (String × GoVal)))
    (g : GenState) (st : RStore) : RedisNewSessionOut :=
  let (sid, g1) := drawUuid g
  let claims : Claims := { userId := userId, ssid := sid, data := jwtData, reg := zeroReg }
  let (pair, g2) := GenerateTokenPair p.opts claims g1
  let ctx2 := (p.carrier.Inject ctx pair.accessToken).setRespHeader
    "X-Refresh-Token" (.tok pair.refreshToken)
  let sess := newRedisSession sid p.expiration claims
  let sd2 := redisSessDataPrep userId g2.now (sessData.getD [])
  let st2 := sess.init st g2.now sd2
  { res := .ok sess, ctx := ctx2, store := st2, gen := g2 }

/-- Response-side header read, for stating what Inject and the
X-Refresh-Token write left on the response. -/
def Ctx.getRespHeader (c : Ctx) (k : String) : HVal :=
  (alGet c.resp k).getD .empty

structure RedisGetOut where
  res : Outcome RedisSessionHandle
  ctx : Ctx
  store : RStore
deriving DecidableEq, Repr

/-- redis Provider.Get: first consults the gin context key map and
returns a cached value that type-asserts to a Session as is; otherwise
extracts the token (empty fails), verifies it, builds the handle,
requires EXISTS on the session key, caches the handle on the context and
returns it. The store is only read (one EXISTS), never written: no
expiry refresh happens. -/
def RedisProvider.Get (p : RedisProvider) (ctx : Ctx) (now : Int) (st : RStore) :
    RedisGetOut :=
  match ctx.getKey CtxSessionKey with
  | some (.sess s) => { res := .ok s, ctx := ctx, store := st }
  | _ =>
    let token := p.carrier.Extract ctx
    if token = .empty then { res := .err .tokenNotFound, ctx := ctx, store := st }
    else
      match verifyToken p.opts now token with
      | .error e => { res := .err (.verify e), ctx := ctx, store := st }
      | .ok claims =>
        let sess := newRedisSession claims.ssid p.expiration claims
        if st.existsKey now (sessionKey claims.ssid) then
          { res := .ok sess, ctx := ctx.setKey CtxSessionKey (.sess sess), store := st }
        else
          { res := .err .redisSessionMissing, ctx := ctx, store := st }

structure RedisDestroyOut where
  res : Outcome Unit
  ctx : Ctx
  store : RStore
deriving DecidableEq, Repr

/-- redis Provider.Destroy: resolve through Provider.Get (an error short
circuits), clear the carrier, then Session.Destroy deletes the key. -/
def RedisProvider.Destroy (p : RedisProvider) (ctx : Ctx) (now : Int) (st : RStore) :
    RedisDestroyOut :=
  let out := p.Get ctx now st
  match out.res with
  | .ok sess =>
    let ctx2 := p.carrier.Clear out.ctx
    { res := .ok (), ctx := ctx2, store := out.store.del sess.key }
  | .err e => { res := .err e, ctx := out.ctx, store := out.store }
  | .panics => { res := .panics, ctx := out.ctx, store := out.store }

structure RedisRenewOut where
  res : Outcome Unit
  ctx : Ctx
  store : RStore
  gen : GenState
deriving DecidableEq, Repr

/-- redis Provider.RenewToken: reads the refresh token from the fixed
X-Refresh-Token request header, verifies it, requires EXISTS for the
embedded ssid, generates a brand new pair from the verified claims,
injects access through the carrier and refresh through X-Refresh-Token,
and EXPIREs the record with the configured expiration. -/
def RedisProvider.RenewToken (p : RedisProvider) (ctx : Ctx) (g : GenState)
    (st : RStore) : RedisRenewOut :=
  let rt := ctx.getHeader "X-Refresh-Token"
  if rt = .empty then { res := .err .noRefreshToken, ctx := ctx, store := st, gen := g }
  else
    match verifyToken p.opts g.now rt with
    | .error e => { res := .err (.verify e), ctx := ctx, store := st, gen := g }
    | .ok claims =>
      if st.existsKey g.now (sessionKey claims.ssid) then
        let (pair, g2) := GenerateTokenPair p.opts claims g
        let ctx2 := (p.carrier.Inject ctx pair.accessToken).setRespHeader
          "X-Refresh-Token" (.tok pair.refreshToken)
        let st2 := st.expire g2.now (sessionKey claims.ssid) p.expiration
        { res := .ok (), ctx := ctx2, store := st2, gen := g2 }
      else
        { res := .err .redisSessionMissing, ctx := ctx, store := st, gen := g }

/-! ## Shared concrete scenario data -/

/-- A small claim payload used by the concrete scenarios. -/
def claimsBase : Claims :=
  { userId := "u1", ssid := 7, data := [("role", "admin")], reg := zeroReg }

/-- Shared concrete manager options: key k, access TTL 100 s, refresh TTL
1000 s. -/
def optsEx : Options := NewOptions "k" 100 1000

/-! ## C1: issue then verify -/

/-- A claim set whose pre-existing registered issuer field is x. -/
def c1BadClaims : Claims :=
  { userId := "u1", ssid := 7, data := [("role", "admin")],
    reg := { issuer := "x", expiresAt := 0, issuedAt := 0, notBefore := 0, jti := 0 } }

/-- C1 counterexample: verifying a token issued from a claim set whose
issuer field was x succeeds, but the returned claim set carries issuer
gint — the issuer is restamped from the manager configuration, so the
temporal fields and the token id are not the only fields that differ. -/
theorem C1_counterexample :
    verifyToken optsEx 0 (.tok (generateToken optsEx c1BadClaims 100 0 1)) =
      .ok { c1BadClaims with
            reg := { issuer := "gint", expiresAt := 100, issuedAt := 0,
                     notBefore := 0, jti := 1 } } ∧
    c1BadClaims.reg.issuer ≠ "gint" := by
  constructor
  · rfl
  · decide

/-- C1 (amended): for every claim set and every TTL t greater than zero,
verifying immediately after issuance with the same manager succeeds and
returns the claim set with UserId, SSID and Data unchanged and the
registered claims restamped (issued-at, not-before, expires-at, token id
— and the issuer, which the manager also overwrites from its
configuration); and verification fails with the expiry error at every
time at or past issued-at plus t. -/
theorem C1_issue_verify_roundtrip (opts : Options) (c : Claims) (t now : Int) (jti : Nat)
    (ht : 0 < t) :
    verifyToken opts now (.tok (generateToken opts c t now jti)) =
      .ok { c with reg := { issuer := opts.issuer, expiresAt := now + t,
                            issuedAt := now, notBefore := now, jti := jti } } ∧
    ∀ now2 : Int, now + t ≤ now2 →
      verifyToken opts now2 (.tok (generateToken opts c t now jti)) =
        .error .expired := by
  constructor
  · simp only [generateToken, verifyToken]
    split_ifs with e1 e2 e3 e4 <;>
      first | rfl | omega | exact absurd rfl e1 | exact absurd rfl e2
  · intro now2 hle
    simp only [generateToken, verifyToken]
    split_ifs with e1 e2 <;>
      first | rfl | omega | exact absurd rfl e1 | exact absurd rfl e2

/-- Witness for C1: the roundtrip at a concrete input. -/
theorem C1_issue_verify_roundtrip_witness :
    (0 : Int) < 100 ∧
    verifyToken optsEx 5 (.tok (generateToken optsEx claimsBase 100 5 3)) =
      .ok { claimsBase with
            reg := { issuer := optsEx.issuer, expiresAt := 5 + 100, issuedAt := 5,
                     notBefore := 5, jti := 3 } } :=
  ⟨by decide, (C1_issue_verify_roundtrip optsEx claimsBase 100 5 3 (by decide)).1⟩

/-! ## C8: claim content of a generated token pair -/

/-- C8 counterexample: the access token and the refresh token of one
GenerateTokenPair call do not share one token id — each generateToken
call draws its own fresh uuid, so the two ids differ. -/
theorem C8_counterexample :
    (GenerateTokenPair optsEx claimsBase { now := 0, ctr := 0 }).1.accessToken.claims.reg.jti ≠
      (GenerateTokenPair optsEx claimsBase { now := 0, ctr := 0 }).1.refreshToken.claims.reg.jti := by
  decide

/-- C8 (amended): the two tokens of one GenerateTokenPair call embed the
same subject id, session id and data map; their expiry horizons are the
access TTL and the refresh TTL from the shared generation time; but each
token receives its own fresh unique token id, so the two ids always
differ. -/
theorem C8_pair_claim_content (opts : Options) (c : Claims) (g : GenState) :
    ((GenerateTokenPair opts c g).1.accessToken.claims.userId = c.userId ∧
      (GenerateTokenPair opts c g).1.refreshToken.claims.userId = c.userId) ∧
    ((GenerateTokenPair opts c g).1.accessToken.claims.ssid = c.ssid ∧
      (GenerateTokenPair opts c g).1.refreshToken.claims.ssid = c.ssid) ∧
    ((GenerateTokenPair opts c g).1.accessToken.claims.data = c.data ∧
      (GenerateTokenPair opts c g).1.refreshToken.claims.data = c.data) ∧
    (GenerateTokenPair opts c g).1.accessToken.claims.reg.expiresAt =
      g.now + opts.accessExpire ∧
    (GenerateTokenPair opts c g).1.refreshToken.claims.reg.expiresAt =
      g.now + opts.refreshExpire ∧
    (GenerateTokenPair opts c g).1.accessToken.claims.reg.jti ≠
      (GenerateTokenPair opts c g).1.refreshToken.claims.reg.jti := by
  refine ⟨⟨rfl, rfl⟩, ⟨rfl, rfl⟩, ⟨rfl, rfl⟩, rfl, rfl, ?_⟩
  simp only [GenerateTokenPair, drawUuid, generateToken]
  omega

/-! ## C7: expiry gate of the memory session operations -/

/-- An already expired memory session (expiry at time 0). -/
def sessExpired7 : MemSession :=
  { id := 1, claims := claimsBase, data := some [("k", .str "v")], expireTime := 0 }

/-- C7 counterexample: memory Session.Destroy performs no expiry check —
on a record that is already expired at time 10 it does not fail with the
expired error but silently succeeds, moving the expiry further into the
past. -/
theorem C7_counterexample :
    sessExpired7.expireTime < (10 : Int) ∧
    MemSession.Destroy sessExpired7 10 ≠ .err .sessionExpired ∧
    MemSession.Destroy sessExpired7 10 = .ok { sessExpired7 with expireTime := 10 - 3600 } := by
  refine ⟨by decide, by decide, rfl⟩

/-- C7 (amended): on the local-memory backend, Get, Set, Del and Refresh
first check whether now is past expireTime and fail with the expired
error, leaving the record unchanged (an error outcome carries no updated
record); Destroy performs no such check and always succeeds, setting the
expiry one hour before now. -/
theorem C7_expired_operations (s : MemSession) (now : Int) (key : String) (v : GoVal)
    (h : s.expireTime < now) :
    MemSession.Get s now key = .err .sessionExpired ∧
    MemSession.Set s now key v = .err .sessionExpired ∧
    MemSession.Del s now key = .err .sessionExpired ∧
    MemSession.Refresh s now = .err .sessionExpired ∧
    MemSession.Destroy s now = .ok { s with expireTime := now - 3600 } := by
  refine ⟨?_, ?_, ?_, ?_, rfl⟩ <;>
    simp [MemSession.Get, MemSession.Set, MemSession.Del, MemSession.Refresh, h]

/-- Witness for C7 (amended) at a concrete expired record. -/
theorem C7_expired_operations_witness :
    sessExpired7.expireTime < (10 : Int) ∧
    MemSession.Refresh sessExpired7 10 = .err .sessionExpired :=
  ⟨by decide, (C7_expired_operations sessExpired7 10 "k" (.str "x") (by decide)).2.2.2.1⟩

/-! ## C4: Refresh semantics of the two session backends -/

/-- A live memory session with expiry 700. -/
def sessLive4 : MemSession :=
  { id := 2, claims := claimsBase, data := some [("a", .int 1)], expireTime := 700 }

/-- C4 counterexample: the memory Session.Refresh of a live session
succeeds but leaves the expiry exactly where it was — with the provider
configured for a 1000 second expiration and the call made at time 0, a
re-application of the configured expiry would give 1000, yet the expiry
stays 700. -/
theorem C4_counterexample :
    MemSession.Refresh sessLive4 0 = .ok sessLive4 ∧
    sessLive4.expireTime ≠
      0 + (MemProvider.NewProvider "k" 100 1000 NewCarrier).expiration := by
  exact ⟨rfl, by decide⟩

/-- C4 (amended): for a live session, Refresh succeeds on both backends
and never makes the expiry earlier, and leaves the key/value content
unchanged; but only the redis backend re-applies the configured expiry
from the current time — the memory backend returns with the expiry (and
everything else) unchanged. The redis half assumes the stored expiry is
at most now plus the configured expiration, which holds for every record
this provider writes. -/
theorem C4_refresh_semantics (s : MemSession) (now : Int)
    (rs : RedisSessionHandle) (st : RStore) (r : RRecord) (e : Int)
    (hm : ¬ s.expireTime < now)
    (hr : alGet st.kv rs.key = some r) (he : r.expireAt = some e) (hlive : now < e)
    (hinv : e ≤ now + rs.expiration) :
    MemSession.Refresh s now = .ok s ∧
    (rs.Refresh st now).1 = .ok () ∧
    alGet (rs.Refresh st now).2.kv rs.key =
      some { r with expireAt := some (now + rs.expiration) } ∧
    e ≤ now + rs.expiration := by
  refine ⟨by simp [MemSession.Refresh, hm], rfl, ?_, hinv⟩
  simp only [RedisSessionHandle.Refresh, RStore.expire, RStore.lookupLive, hr,
    RRecord.alive, he, hlive, if_pos]
  exact alGet_alSet_self st.kv rs.key _

/-- Witness for C4 (amended) at a concrete live record on both backends. -/
theorem C4_refresh_semantics_witness :
    (¬ sessLive4.expireTime < (600 : Int)) ∧
    MemSession.Refresh sessLive4 600 = .ok sessLive4 ∧
    alGet ((RedisSessionHandle.Refresh { ssid := 7, claims := claimsBase, expiration := 1000 }
        { kv := [(sessionKey 7, { fields := [("a", "1")], expireAt := some 700 })] } 600).2.kv)
      (sessionKey 7) =
      some { fields := [("a", "1")], expireAt := some (600 + 1000) } := by
  have h := C4_refresh_semantics sessLive4 600
    { ssid := 7, claims := claimsBase, expiration := 1000 }
    { kv := [(sessionKey 7, { fields := [("a", "1")], expireAt := some 700 })] }
    { fields := [("a", "1")], expireAt := some 700 } 700
    (by decide) (by decide) rfl (by decide) (by decide)
  exact ⟨by decide, h.1, h.2.2.1⟩

/-! ## C10: the redis NewSession bookkeeping writes into sessData -/

/-- C10: redis Provider.NewSession writes user_id (the caller supplied
user id) and created_at (the current unix time) into the caller supplied
sessData map itself before storing it, overwriting whatever the caller
had stored under those two keys, and changes no other entry of the map.
Go maps are reference values, so the writes are visible through the
caller's own map object. -/
theorem C10_sessdata_mutation (userId : String) (now : Int)
    (m : List (String × GoVal)) (k : String)
    (hk1 : k ≠ "user_id") (hk2 : k ≠ "created_at") :
    alGet (redisSessDataPrep userId now m) "user_id" = some (.str userId) ∧
    alGet (redisSessDataPrep userId now m) "created_at" = some (.int now) ∧
    alGet (redisSessDataPrep userId now m) k = alGet m k := by
  refine ⟨?_, ?_, ?_⟩
  · rw [redisSessDataPrep, alGet_alSet_ne _ _ _ _ (by decide), alGet_alSet_self]
  · rw [redisSessDataPrep, alGet_alSet_self]
  · rw [redisSessDataPrep, alGet_alSet_ne _ _ _ _ (Ne.symm hk2),
      alGet_alSet_ne _ _ _ _ (Ne.symm hk1)]

/-- Witness for C10: a caller map with its own user_id entry and one
unrelated entry; the user_id value is overwritten, the unrelated entry
survives untouched. -/
theorem C10_sessdata_mutation_witness :
    ("role" ≠ "user_id") ∧ ("role" ≠ "created_at") ∧
    (alGet (redisSessDataPrep "u1" 42 [("user_id", .str "old"), ("role", .str "admin")])
        "user_id" = some (.str "u1") ∧
      alGet (redisSessDataPrep "u1" 42 [("user_id", .str "old"), ("role", .str "admin")])
        "role" = alGet [("user_id", GoVal.str "old"), ("role", GoVal.str "admin")] "role") :=
  ⟨by decide, by decide,
    (C10_sessdata_mutation "u1" 42 [("user_id", .str "old"), ("role", .str "admin")]
        "role" (by decide) (by decide)).1,
    (C10_sessdata_mutation "u1" 42 [("user_id", .str "old"), ("role", .str "admin")]
        "role" (by decide) (by decide)).2.2⟩

/-! ## Helper lemmas about verification and the provider operations -/

/-- A successful verification only happens on a well formed token and
returns exactly the claims embedded in it. -/
theorem verifyToken_ok_shape (opts : Options) (now : Int) (h : HVal) (c : Claims)
    (hk : verifyToken opts now h = .ok c) : ∃ t : Token, h = .tok t ∧ c = t.claims := by
  cases h with
  | empty => simp [verifyToken] at hk
  | rawStr s => simp [verifyToken] at hk
  | tok t =>
    refine ⟨t, rfl, ?_⟩
    simp only [verifyToken] at hk
    split_ifs at hk
    all_goals simp_all

/-- Every session a successful memory Provider.Get returns has just had
its expiry renewed to now plus the configured expiration. -/
theorem memGet_ok_expireTime (p : MemProvider) (ctx : Ctx) (now : Int) (s : MemSession)
    (h : (MemProvider.Get p ctx now).res = .ok s) : s.expireTime = now + p.expiration := by
  unfold MemProvider.Get at h
  dsimp only at h
  by_cases ht : p.carrier.Extract ctx = .empty
  · rw [if_pos ht] at h
    simp at h
  · rw [if_neg ht] at h
    cases hv : verifyToken p.opts now (p.carrier.Extract ctx) with
    | error e => rw [hv] at h; simp at h
    | ok c =>
      rw [hv] at h
      dsimp only at h
      cases hg : alGet p.sessions c.ssid with
      | none => rw [hg] at h; simp at h
      | some sess =>
        rw [hg] at h
        dsimp only at h
        by_cases he : sess.expireTime < now
        · rw [if_pos he] at h
          simp at h
        · rw [if_neg he] at h
          dsimp only at h
          injection h with h2
          rw [← h2]

/-- redis Provider.Get never writes the store: its only store operation
is the EXISTS read. -/
theorem redisGet_store_unchanged (rp : RedisProvider) (ctx : Ctx) (now : Int)
    (st : RStore) : (RedisProvider.Get rp ctx now st).store = st := by
  unfold RedisProvider.Get
  dsimp only
  repeat' split
  all_goals rfl

/-! ## C3: expiry refresh on successful Get -/

/-- The shared access token of the concrete scenarios: issued at time 5
with the access TTL of optsEx and token id 3. -/
def tokEx : Token := generateToken optsEx claimsBase optsEx.accessExpire 5 3

/-- A concrete live memory session for ssid 7, expiring at 1005. -/
def sessM : MemSession :=
  { id := 7, claims := claimsBase, data := some [("a", .int 1)], expireTime := 1005 }

/-- A concrete memory provider holding sessM. -/
def pM : MemProvider :=
  { opts := optsEx, expiration := 1000, carrier := NewCarrier, sessions := [(7, sessM)] }

/-- A concrete request context carrying tokEx in the Authorization
header, with nothing cached. -/
def ctxM : Ctx := { req := [("Authorization", .tok tokEx)], resp := [], keys := [] }

/-- A concrete redis provider with the same jwt configuration. -/
def rpEx : RedisProvider := RedisProvider.NewProvider "k" 100 1000 NewCarrier

/-- A concrete redis store holding a live record for ssid 7 expiring at
2000. -/
def stR : RStore :=
  { kv := [(sessionKey 7, { fields := [("a", "1")], expireAt := some 2000 })] }

/-- C3 counterexample: a successful redis Provider.Get at time 10 leaves
the store — and hence the record expiry, still 2000 — completely
untouched; a refresh would have set it to 10 plus the configured 1000.
The redis provider performs no expiry refresh on Get. -/
theorem C3_counterexample :
    (RedisProvider.Get rpEx ctxM 10 stR).res = .ok (newRedisSession 7 1000 tokEx.claims) ∧
    (RedisProvider.Get rpEx ctxM 10 stR).store = stR ∧
    alGet stR.kv (sessionKey 7) = some { fields := [("a", "1")], expireAt := some 2000 } ∧
    (2000 : Int) ≠ 10 + rpEx.expiration := by
  exact ⟨rfl, rfl, rfl, by decide⟩

/-- C3 (amended): only the memory provider refreshes on use — every
session a successful memory Get returns carries expiry now plus the
configured expiration, so successful calls at nondecreasing times push
the expiry monotonically forward; the redis provider's Get never touches
the store at all. -/
theorem C3_get_expiry_refresh (p p2 : MemProvider) (ctx ctx2 : Ctx) (now now2 : Int)
    (s s2 : MemSession) (rp : RedisProvider) (rctx : Ctx) (rnow : Int) (rst : RStore)
    (h : (MemProvider.Get p ctx now).res = .ok s)
    (h2 : (MemProvider.Get p2 ctx2 now2).res = .ok s2)
    (hp : p2.expiration = p.expiration) (hn : now ≤ now2) :
    s.expireTime = now + p.expiration ∧
    s.expireTime ≤ s2.expireTime ∧
    (RedisProvider.Get rp rctx rnow rst).store = rst := by
  have a := memGet_ok_expireTime p ctx now s h
  have b := memGet_ok_expireTime p2 ctx2 now2 s2 h2
  rw [hp] at b
  exact ⟨a, by omega, redisGet_store_unchanged rp rctx rnow rst⟩

/-- Witness for C3 (amended): two successful Gets on the concrete memory
scenario at times 10 and 20. -/
theorem C3_get_expiry_refresh_witness :
    (MemProvider.Get pM ctxM 10).res = .ok { sessM with expireTime := 1010 } ∧
    (MemProvider.Get pM ctxM 20).res = .ok { sessM with expireTime := 1020 } ∧
    ({ sessM with expireTime := (1010 : Int) }).expireTime = 10 + pM.expiration ∧
    ({ sessM with expireTime := (1010 : Int) }).expireTime ≤
      ({ sessM with expireTime := (1020 : Int) }).expireTime ∧
    (RedisProvider.Get rpEx ctxM 10 stR).store = stR := by
  have h1 : (MemProvider.Get pM ctxM 10).res = .ok { sessM with expireTime := 1010 } := by
    decide
  have h2 : (MemProvider.Get pM ctxM 20).res = .ok { sessM with expireTime := 1020 } := by
    decide
  have := C3_get_expiry_refresh pM pM ctxM ctxM 10 20
    { sessM with expireTime := 1010 } { sessM with expireTime := 1020 }
    rpEx ctxM 10 stR h1 h2 rfl (by decide)
  exact ⟨h1, h2, this.1, this.2.1, this.2.2⟩

/-! ## C6: per-request memoization of Get -/

/-- A redis session handle cached on a request context. -/
def cachedSess6 : RedisSessionHandle := { ssid := 9, claims := claimsBase, expiration := 1000 }

/-- A request context with a session cached under the session key and no
token header at all. -/
def ctx6 : Ctx := { req := [], resp := [], keys := [(CtxSessionKey, .sess cachedSess6)] }

/-- C6 counterexample: with a session stored on the request context under
the session key, the memory provider's Get still fails with the missing
token error instead of returning the cached instance — the memory
provider never consults the context cache. -/
theorem C6_counterexample :
    ctx6.getKey CtxSessionKey = some (.sess cachedSess6) ∧
    (MemProvider.Get (MemProvider.NewProvider "k" 100 1000 NewCarrier) ctx6 0).res =
      .err .tokenNotFound := by
  exact ⟨rfl, rfl⟩

/-- C6 (amended): only the redis provider memoizes per request: a cached
session under the session key is returned as is, with no token
extraction, no verification, no store access and no state change; on a
context with an empty cache the full resolution path runs (so the
memoization never extends across request contexts). The memory provider
never memoizes: its Get reads nothing but the request headers, so two
contexts with equal request headers produce identical results whatever
either context has cached. -/
theorem C6_memoization (rp : RedisProvider) (rctx rctx2 : Ctx) (rnow rnow2 : Int)
    (st st2 : RStore) (s : RedisSessionHandle)
    (p : MemProvider) (ctx ctx2m : Ctx) (mnow : Int)
    (hc : rctx.getKey CtxSessionKey = some (.sess s))
    (hf : rctx2.getKey CtxSessionKey = none)
    (he : rp.carrier.Extract rctx2 = .empty)
    (hreq : ctx.req = ctx2m.req) :
    RedisProvider.Get rp rctx rnow st = { res := .ok s, ctx := rctx, store := st } ∧
    (RedisProvider.Get rp rctx2 rnow2 st2).res = .err .tokenNotFound ∧
    MemProvider.Get p ctx mnow = MemProvider.Get p ctx2m mnow := by
  refine ⟨?_, ?_, ?_⟩
  · unfold RedisProvider.Get
    rw [hc]
  · unfold RedisProvider.Get
    rw [hf, he]
    rfl
  · have hx : p.carrier.Extract ctx = p.carrier.Extract ctx2m := by
      simp [Carrier.Extract, Ctx.getHeader, hreq]
    unfold MemProvider.Get
    rw [hx]

/-- Witness for C6 (amended): the redis cache hit, the cache miss on a
fresh context, and the memory provider's indifference to the cache, all
at concrete inputs. -/
theorem C6_memoization_witness :
    ctx6.getKey CtxSessionKey = some (.sess cachedSess6) ∧
    RedisProvider.Get rpEx ctx6 0 stR =
      { res := .ok cachedSess6, ctx := ctx6, store := stR } ∧
    (RedisProvider.Get rpEx { req := [], resp := [], keys := [] } 0 stR).res =
      .err .tokenNotFound ∧
    MemProvider.Get pM ctx6 0 =
      MemProvider.Get pM { req := [], resp := [], keys := [] } 0 := by
  have h := C6_memoization rpEx ctx6 { req := [], resp := [], keys := [] } 0 0 stR stR
    cachedSess6 pM ctx6 { req := [], resp := [], keys := [] } 0
    rfl rfl rfl rfl
  exact ⟨rfl, h.1, h.2.1, h.2.2⟩

/-! ## C9: panic freedom -/

/-- C9: the claim is right and the code is wrong — the memory provider
stores a nil sessData map as is (unlike the redis provider, which
replaces nil with a fresh map), so the very first Session.Set on a
session created with nil sessData is an assignment into a nil map: a Go
runtime panic on plain caller input. The theorem evaluates the embedded
code at the failing input. -/
theorem C9_nil_sessdata_set_panics :
    (MemProvider.NewSession (MemProvider.NewProvider "k" 100 1000 NewCarrier)
        { req := [], resp := [], keys := [] } "u1" [] none { now := 0, ctr := 0 }).res =
      .ok { id := 0, claims := { userId := "u1", ssid := 0, data := [], reg := zeroReg },
            data := none, expireTime := 1000 } ∧
    MemSession.Set
        { id := 0, claims := { userId := "u1", ssid := 0, data := [], reg := zeroReg },
          data := none, expireTime := 1000 } 0 "k" (.str "v") = .panics := by
  exact ⟨rfl, rfl⟩

/-- Deleting a key makes EXISTS false for it. -/
theorem existsKey_del (st : RStore) (now : Int) (k : RKey) :
    (RStore.del st k).existsKey now k = false := by
  simp [RStore.existsKey, RStore.lookupLive, RStore.del, alGet_alDel_self]

/-! ## C2: destroy makes a still-valid token useless -/

/-- C2: on both backends, after a successful Destroy, a Get on a fresh
request context carrying the same still-verifying access token fails
with the backend's session-not-found error: the memory provider deleted
the map entry, the redis provider deleted the key, and in both cases it
is the absence of the record — not token verification, which still
succeeds by hypothesis — that rejects the request. -/
theorem C2_destroy_then_get
    (p : MemProvider) (ctx ctx2 : Ctx) (now now2 : Int) (c : Claims)
    (rp : RedisProvider) (rctx rctx2 : Ctx) (rnow rnow2 : Int) (rst : RStore) (rc : Claims)
    (hm1 : (MemProvider.Destroy p ctx now).res = .ok ())
    (hm2 : p.carrier.Extract ctx2 = p.carrier.Extract ctx)
    (hm3 : verifyToken p.opts now2 (p.carrier.Extract ctx2) = .ok c)
    (hr0 : rctx.getKey CtxSessionKey = none)
    (hr1 : (RedisProvider.Destroy rp rctx rnow rst).res = .ok ())
    (hr2 : rctx2.getKey CtxSessionKey = none)
    (hr3 : rp.carrier.Extract rctx2 = rp.carrier.Extract rctx)
    (hr4 : verifyToken rp.opts rnow2 (rp.carrier.Extract rctx2) = .ok rc) :
    (MemProvider.Get (MemProvider.Destroy p ctx now).prov ctx2 now2).res =
      .err .sessionNotFound ∧
    (RedisProvider.Get rp rctx2 rnow2 (RedisProvider.Destroy rp rctx rnow rst).store).res =
      .err .redisSessionMissing := by
  constructor
  · obtain ⟨t2, he2, hc2⟩ := verifyToken_ok_shape _ _ _ _ hm3
    have hne2 : ¬ p.carrier.Extract ctx2 = .empty := by rw [he2]; simp
    have hne : ¬ p.carrier.Extract ctx = .empty := by rw [← hm2]; exact hne2
    simp only [MemProvider.Destroy, if_neg hne] at hm1 ⊢
    cases hv : verifyToken p.opts now (p.carrier.Extract ctx) with
    | error e => simp [hv] at hm1
    | ok c0 =>
      simp only [hv] at hm1 ⊢
      obtain ⟨t1, he1, hc1⟩ := verifyToken_ok_shape _ _ _ _ hv
      have htt : t2 = t1 := by
        have h12 := hm2
        rw [he2, he1] at h12
        exact HVal.tok.inj h12
      have hss : c.ssid = c0.ssid := by rw [hc2, hc1, htt]
      simp only [MemProvider.Get]
      rw [if_neg hne2, hm3]
      dsimp only
      rw [hss, alGet_alDel_self]
  · obtain ⟨t2, he2, hc2⟩ := verifyToken_ok_shape _ _ _ _ hr4
    have hne2 : ¬ rp.carrier.Extract rctx2 = .empty := by rw [he2]; simp
    have hne : ¬ rp.carrier.Extract rctx = .empty := by rw [← hr3]; exact hne2
    simp only [RedisProvider.Destroy, RedisProvider.Get, hr0, hr2, if_neg hne,
      if_neg hne2] at hr1 ⊢
    cases hv : verifyToken rp.opts rnow (rp.carrier.Extract rctx) with
    | error e => simp [hv] at hr1
    | ok c0 =>
      simp only [hv, hr4] at hr1 ⊢
      obtain ⟨t1, he1, hc1⟩ := verifyToken_ok_shape _ _ _ _ hv
      have htt : t2 = t1 := by
        have h12 := hr3
        rw [he2, he1] at h12
        exact HVal.tok.inj h12
      have hss : rc.ssid = c0.ssid := by rw [hc2, hc1, htt]
      by_cases hex : rst.existsKey rnow (sessionKey c0.ssid) = true
      · simp only [hex, if_true] at hr1 ⊢
        dsimp only [newRedisSession, RedisSessionHandle.key] at hr1 ⊢
        rw [hss]
        simp [existsKey_del]
      · simp [hex] at hr1

/-- Witness for C2: concrete destroy-then-get on both backends, with the
same token still verifying at the later time. -/
theorem C2_destroy_then_get_witness :
    (MemProvider.Destroy pM ctxM 10).res = .ok () ∧
    verifyToken pM.opts 20 (pM.carrier.Extract ctxM) = .ok tokEx.claims ∧
    (MemProvider.Get (MemProvider.Destroy pM ctxM 10).prov ctxM 20).res =
      .err .sessionNotFound ∧
    (RedisProvider.Destroy rpEx ctxM 10 stR).res = .ok () ∧
    (RedisProvider.Get rpEx ctxM 20 (RedisProvider.Destroy rpEx ctxM 10 stR).store).res =
      .err .redisSessionMissing := by
  have h := C2_destroy_then_get pM ctxM ctxM 10 20 tokEx.claims
    rpEx ctxM ctxM 10 20 stR tokEx.claims
    (by decide) rfl rfl rfl (by decide) rfl rfl rfl
  exact ⟨by decide, rfl, h.1, by decide, h.2⟩

/-! ## C5: RenewToken semantics -/

/-- C5: on both providers, RenewToken reads the refresh token from the
fixed X-Refresh-Token header (independently of the carrier, which only
ever carries the access token); the three failure modes — no refresh
token, failed verification, no live backend record — map to pairwise
distinct error constructors; and on success a brand-new pair generated
from the verified claims (same user id, session id and data) is
injected, access through the carrier and refresh through the
X-Refresh-Token header, while the backend record's expiry is renewed to
now plus the configured expiration. On the memory backend the
no-live-record mode splits into two distinct errors (absent and
expired), both different from the other modes. -/
theorem C5_renew_semantics
    (p : MemProvider) (ctx : Ctx) (g : GenState)
    (rp : RedisProvider) (rctx : Ctx) (rg : GenState) (rst : RStore)
    (c rc : Claims) (sess : MemSession) (rrec : RRecord) (e re : VerifyErr) :
    (ctx.getHeader "X-Refresh-Token" = .empty →
      (MemProvider.RenewToken p ctx g).res = .err .noRefreshToken) ∧
    (verifyToken p.opts g.now (ctx.getHeader "X-Refresh-Token") = .error e →
      ctx.getHeader "X-Refresh-Token" ≠ .empty →
      (MemProvider.RenewToken p ctx g).res = .err (.verify e)) ∧
    (verifyToken p.opts g.now (ctx.getHeader "X-Refresh-Token") = .ok c →
      alGet p.sessions c.ssid = none →
      (MemProvider.RenewToken p ctx g).res = .err .renewSessionNotFound) ∧
    (verifyToken p.opts g.now (ctx.getHeader "X-Refresh-Token") = .ok c →
      alGet p.sessions c.ssid = some sess → sess.expireTime < g.now →
      (MemProvider.RenewToken p ctx g).res = .err .renewSessionExpired) ∧
    (verifyToken p.opts g.now (ctx.getHeader "X-Refresh-Token") = .ok c →
      alGet p.sessions c.ssid = some sess → ¬ sess.expireTime < g.now →
      p.carrier.headerName ≠ "X-Refresh-Token" →
      (MemProvider.RenewToken p ctx g).res = .ok () ∧
      (MemProvider.RenewToken p ctx g).ctx.getRespHeader p.carrier.headerName =
        .tok (GenerateTokenPair p.opts c g).1.accessToken ∧
      (MemProvider.RenewToken p ctx g).ctx.getRespHeader "X-Refresh-Token" =
        .tok (GenerateTokenPair p.opts c g).1.refreshToken ∧
      (GenerateTokenPair p.opts c g).1.accessToken.claims.userId = c.userId ∧
      (GenerateTokenPair p.opts c g).1.accessToken.claims.ssid = c.ssid ∧
      (GenerateTokenPair p.opts c g).1.accessToken.claims.data = c.data ∧
      (GenerateTokenPair p.opts c g).1.refreshToken.claims.userId = c.userId ∧
      (GenerateTokenPair p.opts c g).1.refreshToken.claims.ssid = c.ssid ∧
      (GenerateTokenPair p.opts c g).1.refreshToken.claims.data = c.data ∧
      alGet (MemProvider.RenewToken p ctx g).prov.sessions c.ssid =
        some { sess with expireTime := g.now + p.expiration }) ∧
    (rctx.getHeader "X-Refresh-Token" = .empty →
      (RedisProvider.RenewToken rp rctx rg rst).res = .err .noRefreshToken) ∧
    (verifyToken rp.opts rg.now (rctx.getHeader "X-Refresh-Token") = .error re →
      rctx.getHeader "X-Refresh-Token" ≠ .empty →
      (RedisProvider.RenewToken rp rctx rg rst).res = .err (.verify re)) ∧
    (verifyToken rp.opts rg.now (rctx.getHeader "X-Refresh-Token") = .ok rc →
      rst.existsKey rg.now (sessionKey rc.ssid) = false →
      (RedisProvider.RenewToken rp rctx rg rst).res = .err .redisSessionMissing) ∧
    (verifyToken rp.opts rg.now (rctx.getHeader "X-Refresh-Token") = .ok rc →
      alGet rst.kv (sessionKey rc.ssid) = some rrec → rrec.alive rg.now = true →
      rp.carrier.headerName ≠ "X-Refresh-Token" →
      (RedisProvider.RenewToken rp rctx rg rst).res = .ok () ∧
      (RedisProvider.RenewToken rp rctx rg rst).ctx.getRespHeader rp.carrier.headerName =
        .tok (GenerateTokenPair rp.opts rc rg).1.accessToken ∧
      (RedisProvider.RenewToken rp rctx rg rst).ctx.getRespHeader "X-Refresh-Token" =
        .tok (GenerateTokenPair rp.opts rc rg).1.refreshToken ∧
      (GenerateTokenPair rp.opts rc rg).1.accessToken.claims.userId = rc.userId ∧
      (GenerateTokenPair rp.opts rc rg).1.accessToken.claims.ssid = rc.ssid ∧
      (GenerateTokenPair rp.opts rc rg).1.accessToken.claims.data = rc.data ∧
      alGet (RedisProvider.RenewToken rp rctx rg rst).store.kv (sessionKey rc.ssid) =
        some { rrec with expireAt := some (rg.now + rp.expiration) }) := by
  refine ⟨?_, ?_, ?_, ?_, ?_, ?_, ?_, ?_, ?_⟩
  · intro h0
    simp [MemProvider.RenewToken, h0]
  · intro hv h0
    simp only [MemProvider.RenewToken, if_neg h0, hv]
  · intro hv h0
    simp only [MemProvider.RenewToken, hv]
    rw [if_neg (by obtain ⟨t, ht, _⟩ := verifyToken_ok_shape _ _ _ _ hv; rw [ht]; simp)]
    try dsimp only
    rw [h0]
  · intro hv h0 hex
    simp only [MemProvider.RenewToken, hv]
    rw [if_neg (by obtain ⟨t, ht, _⟩ := verifyToken_ok_shape _ _ _ _ hv; rw [ht]; simp)]
    try dsimp only
    rw [h0]
    simp [hex]
  · intro hv h0 hex hname
    simp only [MemProvider.RenewToken, hv]
    rw [if_neg (by obtain ⟨t, ht, _⟩ := verifyToken_ok_shape _ _ _ _ hv; rw [ht]; simp)]
    try dsimp only
    rw [h0]
    dsimp only
    rw [if_neg hex]
    refine ⟨rfl, ?_, ?_, rfl, rfl, rfl, rfl, rfl, rfl, ?_⟩
    · dsimp only [Carrier.Inject, Ctx.setRespHeader, Ctx.getRespHeader]
      rw [alGet_alSet_ne _ _ _ _ (Ne.symm hname), alGet_alSet_self]
      rfl
    · dsimp only [Carrier.Inject, Ctx.setRespHeader, Ctx.getRespHeader]
      rw [alGet_alSet_self]
      rfl
    · dsimp only
      rw [alGet_alSet_self]
      simp [GenerateTokenPair, drawUuid]
  · intro h0
    simp [RedisProvider.RenewToken, h0]
  · intro hv h0
    simp only [RedisProvider.RenewToken, if_neg h0, hv]
  · intro hv h0
    simp only [RedisProvider.RenewToken, hv]
    rw [if_neg (by obtain ⟨t, ht, _⟩ := verifyToken_ok_shape _ _ _ _ hv; rw [ht]; simp)]
    try dsimp only
    simp [h0]
  · intro hv h0 halive hname
    have hex : rst.existsKey rg.now (sessionKey rc.ssid) = true := by
      simp [RStore.existsKey, RStore.lookupLive, h0, halive]
    simp only [RedisProvider.RenewToken, hv]
    rw [if_neg (by obtain ⟨t, ht, _⟩ := verifyToken_ok_shape _ _ _ _ hv; rw [ht]; simp)]
    try dsimp only
    rw [if_pos hex]
    refine ⟨rfl, ?_, ?_, rfl, rfl, rfl, ?_⟩
    · dsimp only [Carrier.Inject, Ctx.setRespHeader, Ctx.getRespHeader]
      rw [alGet_alSet_ne _ _ _ _ (Ne.symm hname), alGet_alSet_self]
      rfl
    · dsimp only [Carrier.Inject, Ctx.setRespHeader, Ctx.getRespHeader]
      rw [alGet_alSet_self]
      rfl
    · dsimp only [RStore.expire, RStore.lookupLive, GenerateTokenPair, drawUuid]
      rw [h0]
      dsimp only
      rw [if_pos halive]
      dsimp only
      rw [alGet_alSet_self]

/-- The concrete refresh token of the renewal scenario: issued at time 5
with the refresh TTL of optsEx and token id 4. -/
def tokR : Token := generateToken optsEx claimsBase optsEx.refreshExpire 5 4

/-- A request context carrying tokR in the X-Refresh-Token header. -/
def ctxRT : Ctx := { req := [("X-Refresh-Token", .tok tokR)], resp := [], keys := [] }

/-- Witness for C5: the success path of RenewToken on both providers at a
concrete scenario, with every hypothesis discharged concretely. -/
theorem C5_renew_semantics_witness :
    verifyToken pM.opts 10 (ctxRT.getHeader "X-Refresh-Token") = .ok tokR.claims ∧
    alGet pM.sessions tokR.claims.ssid = some sessM ∧
    (MemProvider.RenewToken pM ctxRT { now := 10, ctr := 5 }).res = .ok () ∧
    (RedisProvider.RenewToken rpEx ctxRT { now := 10, ctr := 5 } stR).res = .ok () := by
  have h := C5_renew_semantics pM ctxRT { now := 10, ctr := 5 }
    rpEx ctxRT { now := 10, ctr := 5 } stR tokR.claims tokR.claims sessM
    { fields := [("a", "1")], expireAt := some 2000 } .malformed .malformed
  refine ⟨rfl, rfl, ?_, ?_⟩
  · exact (h.2.2.2.2.1 rfl rfl (by decide) (by decide)).1
  · exact (h.2.2.2.2.2.2.2.2 rfl rfl rfl (by decide)).1

end Gint
